import Mathlib

/-!
Verification of the Uber Ads MCP server (Python sources under
src/uber_ads_mcp_server/) against its natural-language specification.

The Python code is shallowly embedded: pydantic models become Lean
structures, JSON values become an inductive type, the HTTP session with
its urllib3 retry strategy becomes a function over a stream of attempt
outcomes, and Python exceptions become an explicit error type threaded
through Except.  Python floats are modelled as rationals; Python ints as
Int.  A Python dict is modelled as an association list (Python dicts
preserve insertion order and have unique keys).
-/

namespace UberAds

/-- JSON values as produced by json.loads / consumed by json.dumps.
Python distinguishes int and float, but both arrive as numeric literals;
we model numbers as a single rational constructor and recover intness as
denominator 1 (which is exactly how an integral literal parses). -/
inductive Json where
  | null : Json
  | bool : Bool → Json
  | num : Rat → Json
  | str : String → Json
  | arr : List Json → Json
  | obj : List (String × Json) → Json

/-- Python dict lookup d.get(k) on an association list.  Dicts built by
the code at hand never carry duplicate keys, so taking the first match
is faithful. -/
def jlookup : List (String × Json) → String → Option Json
  | [], _ => none
  | (k, v) :: rest, key => if k = key then some v else jlookup rest key

/-- Whether a JSON value is Python's None. -/
def Json.isNull : Json → Bool
  | .null => true
  | _ => false

/-- A value placed into the requests params dict: either an int, a
string, or a list of strings (for repeated query parameters). -/
inductive ParamVal where
  | int : Int → ParamVal
  | str : String → ParamVal
  | strs : List String → ParamVal
deriving DecidableEq

/-! ### types.py: enumerated Literal fields -/

/-- Literal["ACTIVE", "PAUSED", "ARCHIVED", "DRAFT"] (Campaign.status). -/
inductive CampaignStatus where
  | ACTIVE | PAUSED | ARCHIVED | DRAFT
deriving DecidableEq

def CampaignStatus.render : CampaignStatus → String
  | .ACTIVE => "ACTIVE"
  | .PAUSED => "PAUSED"
  | .ARCHIVED => "ARCHIVED"
  | .DRAFT => "DRAFT"

def parseCampaignStatus : String → Option CampaignStatus
  | "ACTIVE" => some .ACTIVE
  | "PAUSED" => some .PAUSED
  | "ARCHIVED" => some .ARCHIVED
  | "DRAFT" => some .DRAFT
  | _ => none

/-- Literal["ACTIVE", "PAUSED", "ARCHIVED"] (the status filter of
GetCampaignsOptions and GetCampaignsArgs). -/
inductive StatusFilter where
  | ACTIVE | PAUSED | ARCHIVED
deriving DecidableEq

def StatusFilter.render : StatusFilter → String
  | .ACTIVE => "ACTIVE"
  | .PAUSED => "PAUSED"
  | .ARCHIVED => "ARCHIVED"

def parseStatusFilter : String → Option StatusFilter
  | "ACTIVE" => some .ACTIVE
  | "PAUSED" => some .PAUSED
  | "ARCHIVED" => some .ARCHIVED
  | _ => none

/-- Literal["DAILY", "LIFETIME"] (Campaign.budget_type). -/
inductive BudgetType where
  | DAILY | LIFETIME
deriving DecidableEq

def BudgetType.render : BudgetType → String
  | .DAILY => "DAILY"
  | .LIFETIME => "LIFETIME"

def parseBudgetType : String → Option BudgetType
  | "DAILY" => some .DAILY
  | "LIFETIME" => some .LIFETIME
  | _ => none

/-- Literal["city", "region", "country", "postal_code"]
(LocationTargeting.type). -/
inductive LocationType where
  | city | region | country | postal_code
deriving DecidableEq

def LocationType.render : LocationType → String
  | .city => "city"
  | .region => "region"
  | .country => "country"
  | .postal_code => "postal_code"

def parseLocationType : String → Option LocationType
  | "city" => some .city
  | "region" => some .region
  | "country" => some .country
  | "postal_code" => some .postal_code
  | _ => none

/-- Literal["male", "female", "all"] (DemographicTargeting.genders
elements). -/
inductive Gender where
  | male | female | all
deriving DecidableEq

def Gender.render : Gender → String
  | .male => "male"
  | .female => "female"
  | .all => "all"

def parseGender : String → Option Gender
  | "male" => some .male
  | "female" => some .female
  | "all" => some .all
  | _ => none

/-- Literal["image", "video", "text"] (CreativeAsset.type). -/
inductive AssetType where
  | image | video | text
deriving DecidableEq

def AssetType.render : AssetType → String
  | .image => "image"
  | .video => "video"
  | .text => "text"

def parseAssetType : String → Option AssetType
  | "image" => some .image
  | "video" => some .video
  | "text" => some .text
  | _ => none

/-- Literal["image", "video", "carousel"] (CreativeSpec.type). -/
inductive CreativeType where
  | image | video | carousel
deriving DecidableEq

def CreativeType.render : CreativeType → String
  | .image => "image"
  | .video => "video"
  | .carousel => "carousel"

def parseCreativeType : String → Option CreativeType
  | "image" => some .image
  | "video" => some .video
  | "carousel" => some .carousel
  | _ => none

/-- Literal["created_at", "updated_at", "name", "spend"]
(GetCampaignsOptions.sort_by). -/
inductive SortBy where
  | created_at | updated_at | name | spend
deriving DecidableEq

def SortBy.render : SortBy → String
  | .created_at => "created_at"
  | .updated_at => "updated_at"
  | .name => "name"
  | .spend => "spend"

/-- Literal["asc", "desc"] (GetCampaignsOptions.sort_order). -/
inductive SortOrder where
  | asc | desc
deriving DecidableEq

def SortOrder.render : SortOrder → String
  | .asc => "asc"
  | .desc => "desc"

/-! ### types.py: GetCampaignsOptions -/

/-- types.py GetCampaignsOptions: limit defaults to 50, offset to 0,
all the rest to None. -/
structure GetCampaignsOptions where
  limit : Option Int := some 50
  offset : Option Int := some 0
  status : Option StatusFilter := none
  objective : Option String := none
  sort_by : Option SortBy := none
  sort_order : Option SortOrder := none
deriving DecidableEq

/-! ### uber_ads_client.py: query parameter construction -/

/-- Python truthiness of an optional int: None and 0 are falsy. -/
def truthyInt : Option Int → Bool
  | none => false
  | some n => decide (n ≠ 0)

/-- One conditional insertion of an optional int parameter:
if options.field: params[key] = options.field. -/
def intParam (key : String) (v : Option Int) : List (String × ParamVal) :=
  if truthyInt v then [(key, ParamVal.int (v.getD 0))] else []

/-- One conditional insertion of an enumerated string parameter: the
rendered literal is always a non-empty string, so Python truthiness is
just being not None. -/
def enumParam (key : String) (render : α → String) : Option α → List (String × ParamVal)
  | some a => [(key, ParamVal.str (render a))]
  | none => []

/-- uber_ads_client.py get_campaigns, lines 147-157: the params dict
built with Python truthiness tests (if options.limit: ... etc.). -/
def buildCampaignParams (o : GetCampaignsOptions) : List (String × ParamVal) :=
  intParam ("limit") o.limit ++
  intParam ("offset") o.offset ++
  enumParam ("status") StatusFilter.render o.status ++
  enumParam ("sort_by") SortBy.render o.sort_by ++
  enumParam ("sort_order") SortOrder.render o.sort_order

/-- Modelled from the spec (claim C1 wording): the query contains
exactly the parameters that are set (unset/None omitted), with the
default values of limit (50) and offset (0), when present in the
options record, still sent. -/
def specCampaignParamsC1 (o : GetCampaignsOptions) : List (String × ParamVal) :=
  (match o.limit with
   | some n => [("limit", ParamVal.int n)]
   | none => []) ++
  (match o.offset with
   | some n => [("offset", ParamVal.int n)]
   | none => []) ++
  (match o.status with
   | some st => [("status", ParamVal.str st.render)]
   | none => []) ++
  (match o.sort_by with
   | some sb => [("sort_by", ParamVal.str sb.render)]
   | none => []) ++
  (match o.sort_order with
   | some so => [("sort_order", ParamVal.str so.render)]
   | none => [])

/-! ### uber_ads_client.py: transport with retry

The session is a requests.Session mounted with an HTTPAdapter whose
urllib3 retry strategy is Retry(total=3, backoff_factor=1,
status_forcelist=[429, 500, 502, 503, 504]).  urllib3 semantics
(modelled here, since urllib3 is an external library): `total` bounds
the number of RETRIES, not attempts; each failed attempt decrements it
and a further failure with the budget at zero raises MaxRetryError,
which requests surfaces as a RetryError / ConnectionError (both
RequestException).  A response whose status is not in the forcelist is
returned as-is.  Backoff only affects sleeping, not outcomes. -/

/-- The body of an HTTP response: empty content, content that is not
valid JSON, or parsed JSON. -/
inductive Body where
  | empty : Body
  | invalid : Body
  | json : Json → Body

/-- What the network does on one attempt: a response with a status and
body, or an outright connection failure. -/
inductive Attempt where
  | resp : Nat → Body → Attempt
  | connFail : Attempt

/-- status_forcelist=[429, 500, 502, 503, 504]. -/
def transient (c : Nat) : Bool :=
  c = 429 || c = 500 || c = 502 || c = 503 || c = 504

/-- Outcome of session.request after the retry loop: a final response
(with the number of attempts made), or exhaustion of the retry budget
(MaxRetryError, surfaced as a RequestException). -/
inductive SessionResult where
  | response : Nat → Body → Nat → SessionResult
  | exhausted : Nat → SessionResult

/-- One step of the urllib3 retry loop: i is the index of the attempt
about to be made, left the remaining retry budget.  A retriable
failure with the budget at zero raises MaxRetryError; otherwise it
consumes one retry. -/
def retryLoop (net : Nat → Attempt) : Nat → Nat → SessionResult
  | i, 0 =>
    match net i with
    | .resp c body =>
      if transient c then .exhausted (i + 1) else .response c body (i + 1)
    | .connFail => .exhausted (i + 1)
  | i, left + 1 =>
    match net i with
    | .resp c body =>
      if transient c then retryLoop net (i + 1) left else .response c body (i + 1)
    | .connFail => retryLoop net (i + 1) left

/-- session.request with Retry(total=3): initial attempt plus up to 3
retries. -/
def sessionRequest (net : Nat → Attempt) : SessionResult :=
  retryLoop net 0 3

/-- Number of attempts the session made. -/
def attemptsOf : SessionResult → Nat
  | .response _ _ n => n
  | .exhausted n => n

/-! ### Python exceptions relevant to the embedded code -/

/-- The exceptions the embedded code raises and catches:
UberAdsAPIError (message, optional status code), pydantic
ValidationError (model name and offending fields), AttributeError
(.get on a non-dict), TypeError (** applied to a non-mapping). -/
inductive PyExn where
  | apiError : String → Option Nat → PyExn
  | validationError : String → List String → PyExn
  | attributeError : String → PyExn
  | typeError : String → PyExn

/-- Modelled rendering of str(pydantic.ValidationError): pydantic lists
every offending field; we keep the model name and the field names. -/
def validationErrorText (model : String) (fields : List String) : String :=
  "validation error for " ++ model ++ ": " ++ String.intercalate (", ") fields

/-- str(e) for a Python exception (modelled; only the apiError case is
exercised by the claims on exact texts). -/
def pyStr : PyExn → String
  | .apiError m _ => m
  | .validationError model fields => validationErrorText model fields
  | .attributeError m => m
  | .typeError m => m

/-- Modelled str(requests.exceptions.HTTPError) for a given status:
the raw library error text for a failed status. -/
def strHTTPError (c : Nat) : String :=
  "HTTP error for status " ++ toString c

/-- Modelled str of the RetryError / ConnectionError raised once the
retry budget is exhausted. -/
def retryExhaustedText : String := "max retries exceeded"

/-- Modelled str of the JSONDecodeError raised by response.json() on a
2xx body that is not valid JSON (a RequestException in requests). -/
def jsonDecodeText : String := "response body is not valid JSON"

/-- Python str() / f-string formatting of a JSON value (modelled; only
the string case is exercised by the claims). -/
def Json.render : Json → String
  | .null => "None"
  | .bool true => "True"
  | .bool false => "False"
  | .num q => if q.den = 1 then toString q.num else toString q
  | .str s => s
  | .arr _ => "<list>"
  | .obj _ => "<dict>"

/-- requests truthiness of a Response: Response.__bool__ returns
self.ok, which is true exactly for status codes below 400.  The code's
`if e.response` tests are THIS, not an is-not-None test — and the
response attached to an HTTPError always has an error status, so these
tests are false on every path that reaches them. -/
def responseTruthy (status : Nat) : Bool :=
  status < 400

/-- uber_ads_client.py line 90: error_data = e.response.json() if
e.response else {}.  The truthy arm parses the body (none here models
json() raising, caught by the bare except); the falsy arm — the one
that actually runs for every error status — is the empty dict. -/
def errorDataOf (status : Nat) (body : Body) : Option Json :=
  if responseTruthy status then
    match body with
    | .json j => some j
    | _ => none
  else some (Json.obj [])

/-- uber_ads_client.py line 91: error_data.get("error",
{}).get("message", str(e)); a non-dict anywhere in the chain raises
AttributeError into the bare except, which yields str(e), as does the
.get default.  On the empty dict this is always str(e). -/
def messageChain (status : Nat) : Json → String
  | Json.obj fields =>
    match jlookup fields "error" with
    | some (Json.obj efields) =>
      match jlookup efields "message" with
      | some v => v.render
      | none => strHTTPError status
    | some _ => strHTTPError status
    | none => strHTTPError status
  | _ => strHTTPError status

/-- uber_ads_client.py lines 89-93: the message computed in the
HTTPError handler (errors inside the try fall to the bare except and
yield str(e)). -/
def httpErrorMessage (status : Nat) (body : Body) : String :=
  match errorDataOf status body with
  | some errorData => messageChain status errorData
  | none => strHTTPError status

/-- uber_ads_client.py line 88: status_code = e.response.status_code
if e.response else None — requests truthiness again, so None for every
error status. -/
def httpErrorStatusCode (status : Nat) : Option Nat :=
  if responseTruthy status then some status else none

/-- uber_ads_client.py _make_request (lines 61-100).  The params are
recorded but do not influence the modelled remote, which is the net
oracle.  raise_for_status raises HTTPError exactly for statuses in
[400, 600). -/
def makeRequest (_params : List (String × ParamVal)) (net : Nat → Attempt) :
    Except PyExn Json :=
  match sessionRequest net with
  | .exhausted _ =>
    .error (.apiError ("Request error: " ++ retryExhaustedText) none)
  | .response status body _ =>
    if 400 ≤ status ∧ status < 600 then
      .error (.apiError ("Uber Ads API error: " ++ httpErrorMessage status body)
        (httpErrorStatusCode status))
    else
      match body with
      | .empty => .ok (Json.obj [])
      | .invalid => .error (.apiError ("Request error: " ++ jsonDecodeText) none)
      | .json j => .ok j

/-! ### pydantic validation machinery

pydantic validates every field and reports all offending fields at
once.  A model validator below returns either the validated entity or
the list of offending top-level field names (pydantic reports nested
paths; we keep the top-level name, which is all the spec's claims
inspect).  Nested models are validated by Option-valued parsers;
pydantic's lax coercions that matter here are modelled: int fields
accept integral numbers and integral numeric strings, float fields
accept any number.  Unknown keys are ignored (the models declare no
extra="forbid", and pydantic's default is extra="ignore"). -/

/-- Applicative combination that accumulates offending fields, as
pydantic does across the fields of one model. -/
def vseq : Except (List String) (α → β) → Except (List String) α →
    Except (List String) β
  | .ok f, .ok a => .ok (f a)
  | .error e, .ok _ => .error e
  | .ok _, .error e => .error e
  | .error e, .error e' => .error (e ++ e')

/-- A required field: missing or unparseable yields the field name. -/
def reqField (fs : List (String × Json)) (name : String)
    (p : Json → Option α) : Except (List String) α :=
  match jlookup fs name with
  | none => .error [name]
  | some v =>
    match p v with
    | some a => .ok a
    | none => .error [name]

/-- An Optional[T] field with default dflt (None unless stated):
absent yields the default, an explicit null yields None, any other
value must parse. -/
def optFieldD (fs : List (String × Json)) (name : String) (dflt : Option α)
    (p : Json → Option α) : Except (List String) (Option α) :=
  match jlookup fs name with
  | none => .ok dflt
  | some v =>
    if v.isNull then .ok none
    else
      match p v with
      | some a => .ok (some a)
      | none => .error [name]

/-- An Optional[T] field with default None. -/
def optField (fs : List (String × Json)) (name : String)
    (p : Json → Option α) : Except (List String) (Option α) :=
  optFieldD fs name none p

/-- str fields accept exactly strings (pydantic v2 does not coerce
numbers to str). -/
def pStr : Json → Option String
  | .str s => some s
  | _ => none

/-- int fields accept integral numbers and, in lax mode, integral
numeric strings. -/
def pInt : Json → Option Int
  | .num q => if q.den = 1 then some q.num else none
  | .str s => s.toInt?
  | _ => none

/-- float fields accept any number (ints are coerced). -/
def pRat : Json → Option Rat
  | .num q => some q
  | _ => none

/-- A Literal[...] field: a string inside the closed set. -/
def pLit (parse : String → Option α) : Json → Option α
  | .str s => parse s
  | _ => none

/-- Elementwise validation of a Python list, left to right. -/
def oList (p : Json → Option α) : List Json → Option (List α)
  | [] => some []
  | j :: js =>
    match p j with
    | none => none
    | some a =>
      match oList p js with
      | none => none
      | some as => some (a :: as)

/-- List[T] fields. -/
def pList (p : Json → Option α) : Json → Option (List α)
  | .arr l => oList p l
  | _ => none

/-- An optional field inside a nested model (Option-level): absent or
null is None, anything else must parse. -/
def oOpt (fs : List (String × Json)) (name : String)
    (p : Json → Option α) : Option (Option α) :=
  match jlookup fs name with
  | none => some none
  | some v => if v.isNull then some none else (p v).map some

/-- A required field inside a nested model (Option-level). -/
def oReq (fs : List (String × Json)) (name : String)
    (p : Json → Option α) : Option α :=
  (jlookup fs name).bind p

/-- Elementwise validation of a Python dict's values. -/
def oMap (p : Json → Option α) : List (String × Json) → Option (List (String × α))
  | [] => some []
  | (k, v) :: rest =>
    match p v with
    | none => none
    | some a =>
      match oMap p rest with
      | none => none
      | some as => some ((k, a) :: as)

/-- Dict[str, int] fields. -/
def pIntMap : Json → Option (List (String × Int))
  | .obj fs => oMap pInt fs
  | _ => none

/-- Dict[str, str] fields. -/
def pStrMap : Json → Option (List (String × String))
  | .obj fs => oMap pStr fs
  | _ => none

/-! ### types.py: entity models -/

/-- types.py AdAccount. -/
structure AdAccount where
  id : String
  name : String
  currency : String
  timezone : String
  status : String
  created_at : String
  updated_at : String
deriving DecidableEq

/-- types.py LocationTargeting. -/
structure LocationTargeting where
  type : LocationType
  value : String
  radius : Option Int := none
deriving DecidableEq

/-- types.py DemographicTargeting. -/
structure DemographicTargeting where
  age_min : Option Int := none
  age_max : Option Int := none
  genders : Option (List Gender) := none
deriving DecidableEq

/-- types.py CampaignTargeting. -/
structure CampaignTargeting where
  locations : Option (List LocationTargeting) := none
  demographics : Option DemographicTargeting := none
  interests : Option (List String) := none
  behaviors : Option (List String) := none
deriving DecidableEq

/-- types.py CreativeAsset. -/
structure CreativeAsset where
  id : String
  type : AssetType
  url : Option String := none
  text : Option String := none
  dimensions : Option (List (String × Int)) := none
deriving DecidableEq

/-- types.py CreativeSpec. -/
structure CreativeSpec where
  id : String
  name : String
  type : CreativeType
  assets : List CreativeAsset
deriving DecidableEq

/-- types.py Campaign. -/
structure Campaign where
  id : String
  name : String
  status : CampaignStatus
  objective : String
  budget_type : BudgetType
  daily_budget : Option Rat := none
  lifetime_budget : Option Rat := none
  start_time : String
  end_time : Option String := none
  created_at : String
  updated_at : String
  targeting : Option CampaignTargeting := none
  creative_specs : Option (List CreativeSpec) := none
deriving DecidableEq

/-- types.py CampaignStatsBreakdown. -/
structure CampaignStatsBreakdown where
  date : String
  impressions : Int
  clicks : Int
  spend : Rat
  conversions : Int
deriving DecidableEq

/-- types.py CampaignStats. -/
structure CampaignStats where
  campaign_id : String
  impressions : Int
  clicks : Int
  spend : Rat
  conversions : Int
  ctr : Rat
  cpm : Rat
  cpc : Rat
  conversion_rate : Rat
  date_range : List (String × String)
  breakdown : Option (List CampaignStatsBreakdown) := none
deriving DecidableEq

/-! ### nested-model parsers (Option-level) -/

def pLocationTargeting : Json → Option LocationTargeting
  | .obj fs => do
    let t ← oReq fs ("type") (pLit parseLocationType)
    let v ← oReq fs ("value") pStr
    let r ← oOpt fs ("radius") pInt
    pure ⟨t, v, r⟩
  | _ => none

def pDemographicTargeting : Json → Option DemographicTargeting
  | .obj fs => do
    let amin ← oOpt fs ("age_min") pInt
    let amax ← oOpt fs ("age_max") pInt
    let gs ← oOpt fs ("genders") (pList (pLit parseGender))
    pure ⟨amin, amax, gs⟩
  | _ => none

def pCampaignTargeting : Json → Option CampaignTargeting
  | .obj fs => do
    let locs ← oOpt fs ("locations") (pList pLocationTargeting)
    let demo ← oOpt fs ("demographics") pDemographicTargeting
    let ints ← oOpt fs ("interests") (pList pStr)
    let behs ← oOpt fs ("behaviors") (pList pStr)
    pure ⟨locs, demo, ints, behs⟩
  | _ => none

def pCreativeAsset : Json → Option CreativeAsset
  | .obj fs => do
    let i ← oReq fs ("id") pStr
    let t ← oReq fs ("type") (pLit parseAssetType)
    let u ← oOpt fs ("url") pStr
    let tx ← oOpt fs ("text") pStr
    let d ← oOpt fs ("dimensions") pIntMap
    pure ⟨i, t, u, tx, d⟩
  | _ => none

def pCreativeSpec : Json → Option CreativeSpec
  | .obj fs => do
    let i ← oReq fs ("id") pStr
    let n ← oReq fs ("name") pStr
    let t ← oReq fs ("type") (pLit parseCreativeType)
    let a ← oReq fs ("assets") (pList pCreativeAsset)
    pure ⟨i, n, t, a⟩
  | _ => none

def pStatsBreakdown : Json → Option CampaignStatsBreakdown
  | .obj fs => do
    let d ← oReq fs ("date") pStr
    let im ← oReq fs ("impressions") pInt
    let cl ← oReq fs ("clicks") pInt
    let sp ← oReq fs ("spend") pRat
    let cv ← oReq fs ("conversions") pInt
    pure ⟨d, im, cl, sp, cv⟩
  | _ => none

/-! ### model-level validators (field lists, accumulating errors) -/

/-- pydantic validation of AdAccount from a keyword mapping. -/
def validateAdAccountFields (fs : List (String × Json)) :
    Except (List String) AdAccount :=
  vseq (vseq (vseq (vseq (vseq (vseq (vseq
    (Except.ok AdAccount.mk)
    (reqField fs ("id") pStr))
    (reqField fs ("name") pStr))
    (reqField fs ("currency") pStr))
    (reqField fs ("timezone") pStr))
    (reqField fs ("status") pStr))
    (reqField fs ("created_at") pStr))
    (reqField fs ("updated_at") pStr)

/-- pydantic validation of Campaign from a keyword mapping. -/
def validateCampaignFields (fs : List (String × Json)) :
    Except (List String) Campaign :=
  vseq (vseq (vseq (vseq (vseq (vseq (vseq (vseq (vseq (vseq (vseq (vseq (vseq
    (Except.ok Campaign.mk)
    (reqField fs ("id") pStr))
    (reqField fs ("name") pStr))
    (reqField fs ("status") (pLit parseCampaignStatus)))
    (reqField fs ("objective") pStr))
    (reqField fs ("budget_type") (pLit parseBudgetType)))
    (optField fs ("daily_budget") pRat))
    (optField fs ("lifetime_budget") pRat))
    (reqField fs ("start_time") pStr))
    (optField fs ("end_time") pStr))
    (reqField fs ("created_at") pStr))
    (reqField fs ("updated_at") pStr))
    (optField fs ("targeting") pCampaignTargeting))
    (optField fs ("creative_specs") (pList pCreativeSpec))

/-- pydantic validation of CampaignStats from a keyword mapping. -/
def validateCampaignStatsFields (fs : List (String × Json)) :
    Except (List String) CampaignStats :=
  vseq (vseq (vseq (vseq (vseq (vseq (vseq (vseq (vseq (vseq (vseq
    (Except.ok CampaignStats.mk)
    (reqField fs ("campaign_id") pStr))
    (reqField fs ("impressions") pInt))
    (reqField fs ("clicks") pInt))
    (reqField fs ("spend") pRat))
    (reqField fs ("conversions") pInt))
    (reqField fs ("ctr") pRat))
    (reqField fs ("cpm") pRat))
    (reqField fs ("cpc") pRat))
    (reqField fs ("conversion_rate") pRat))
    (reqField fs ("date_range") pStrMap))
    (optField fs ("breakdown") (pList pStatsBreakdown))

/-- Model(**data): data must be a mapping (else TypeError), then
pydantic validation runs (else ValidationError). -/
def starValidate (model : String) (validate : List (String × Json) → Except (List String) α)
    (j : Json) : Except PyExn α :=
  match j with
  | .obj fs =>
    match validate fs with
    | .ok a => .ok a
    | .error fields => .error (.validationError model fields)
  | _ => .error (.typeError ("argument after ** must be a mapping"))

def validateAdAccountStar : Json → Except PyExn AdAccount :=
  starValidate ("AdAccount") validateAdAccountFields

def validateCampaignStar : Json → Except PyExn Campaign :=
  starValidate ("Campaign") validateCampaignFields

def validateCampaignStatsStar : Json → Except PyExn CampaignStats :=
  starValidate ("CampaignStats") validateCampaignStatsFields

/-! ### model_dump: serialization back to JSON

model_dump produces a dict with every field present (None included);
json.dumps followed by json.loads is the identity on these values
(every dict in sight has unique keys), so the dump below is the JSON
representation that gets re-validated in the round-trip claim. -/

def jOpt (f : α → Json) : Option α → Json
  | none => Json.null
  | some a => f a

def jOptList (f : α → Json) : Option (List α) → Json
  | none => Json.null
  | some l => Json.arr (l.map f)

def jInt (n : Int) : Json := Json.num (n : Rat)

def dumpLocationTargeting (l : LocationTargeting) : Json :=
  Json.obj [("type", Json.str l.type.render), ("value", Json.str l.value),
    ("radius", jOpt jInt l.radius)]

def dumpDemographicTargeting (d : DemographicTargeting) : Json :=
  Json.obj [("age_min", jOpt jInt d.age_min), ("age_max", jOpt jInt d.age_max),
    ("genders", jOptList (fun g => Json.str g.render) d.genders)]

def dumpCampaignTargeting (t : CampaignTargeting) : Json :=
  Json.obj [("locations", jOptList dumpLocationTargeting t.locations),
    ("demographics", jOpt dumpDemographicTargeting t.demographics),
    ("interests", jOptList Json.str t.interests),
    ("behaviors", jOptList Json.str t.behaviors)]

def dumpCreativeAsset (a : CreativeAsset) : Json :=
  Json.obj [("id", Json.str a.id), ("type", Json.str a.type.render),
    ("url", jOpt Json.str a.url), ("text", jOpt Json.str a.text),
    ("dimensions", jOpt (fun d => Json.obj (d.map (fun kv => (kv.1, jInt kv.2)))) a.dimensions)]

def dumpCreativeSpec (s : CreativeSpec) : Json :=
  Json.obj [("id", Json.str s.id), ("name", Json.str s.name),
    ("type", Json.str s.type.render),
    ("assets", Json.arr (s.assets.map dumpCreativeAsset))]

/-- Campaign.model_dump() as a keyword mapping. -/
def campaignDump (c : Campaign) : List (String × Json) :=
  [("id", Json.str c.id),
   ("name", Json.str c.name),
   ("status", Json.str c.status.render),
   ("objective", Json.str c.objective),
   ("budget_type", Json.str c.budget_type.render),
   ("daily_budget", jOpt Json.num c.daily_budget),
   ("lifetime_budget", jOpt Json.num c.lifetime_budget),
   ("start_time", Json.str c.start_time),
   ("end_time", jOpt Json.str c.end_time),
   ("created_at", Json.str c.created_at),
   ("updated_at", Json.str c.updated_at),
   ("targeting", jOpt dumpCampaignTargeting c.targeting),
   ("creative_specs", jOptList dumpCreativeSpec c.creative_specs)]

/-- AdAccount.model_dump() as a keyword mapping. -/
def adAccountDump (a : AdAccount) : List (String × Json) :=
  [("id", Json.str a.id), ("name", Json.str a.name),
   ("currency", Json.str a.currency), ("timezone", Json.str a.timezone),
   ("status", Json.str a.status), ("created_at", Json.str a.created_at),
   ("updated_at", Json.str a.updated_at)]

def dumpStatsBreakdown (b : CampaignStatsBreakdown) : Json :=
  Json.obj [("date", Json.str b.date), ("impressions", jInt b.impressions),
    ("clicks", jInt b.clicks), ("spend", Json.num b.spend),
    ("conversions", jInt b.conversions)]

/-- CampaignStats.model_dump() as a keyword mapping. -/
def campaignStatsDump (s : CampaignStats) : List (String × Json) :=
  [("campaign_id", Json.str s.campaign_id),
   ("impressions", jInt s.impressions),
   ("clicks", jInt s.clicks),
   ("spend", Json.num s.spend),
   ("conversions", jInt s.conversions),
   ("ctr", Json.num s.ctr),
   ("cpm", Json.num s.cpm),
   ("cpc", Json.num s.cpc),
   ("conversion_rate", Json.num s.conversion_rate),
   ("date_range", Json.obj (s.date_range.map (fun kv => (kv.1, Json.str kv.2)))),
   ("breakdown", jOptList dumpStatsBreakdown s.breakdown)]

/-! ### uber_ads_client.py: configuration, headers, public operations -/

/-- types.py UberAdsConfig. -/
structure UberAdsConfig where
  client_id : Option String := none
  client_secret : Option String := none
  base_url : String := "https://api.uber.com"
deriving DecidableEq

/-- The literal bearer token assigned at uber_ads_client.py line 41
("Hardcoded token from the user's curl example").  The literal is
redacted here (it is a live-looking credential); the claims only use
that it is a fixed constant independent of the configuration. -/
def hardcodedAccessToken : String := "IA.<hardcoded-literal-token>"

/-- uber_ads_client.py lines 55-59: the default headers installed on
the session.  Note they use the hardcoded token, not the config. -/
def clientHeaders (_config : UberAdsConfig) : List (String × String) :=
  [("Content-Type", "application/json"),
   ("Accept", "application/json"),
   ("Authorization", "Bearer " ++ hardcodedAccessToken)]

/-- response_data.get("data", response_data): AttributeError when the
parsed body is not a dict (e.g. a bare JSON list). -/
def pyGetData : Json → Except PyExn Json
  | .obj fs => .ok ((jlookup fs "data").getD (Json.obj fs))
  | _ => .error (.attributeError ("object has no attribute get"))

/-- The list comprehension [Model(**x) for x in data]: validates left
to right, raising on the first failure. -/
def mapStar (validate : Json → Except PyExn α) : List Json → Except PyExn (List α)
  | [] => .ok []
  | j :: js =>
    match validate j with
    | .error e => .error e
    | .ok a =>
      match mapStar validate js with
      | .error e => .error e
      | .ok rest => .ok (a :: rest)

/-- The isinstance(data, list) branch shared verbatim by the three
list-returning operations: a list validates elementwise, anything else
is validated as a single entity and wrapped in a list. -/
def listFromData (validate : Json → Except PyExn α) : Json → Except PyExn (List α)
  | .arr l => mapStar validate l
  | j =>
    match validate j with
    | .error e => .error e
    | .ok a => .ok [a]

/-- The shared body of the try block of the three list-returning
operations (the Python text is triplicated verbatim across them):
request, unwrap the optional data key, normalize to a list. -/
def listCore (validate : Json → Except PyExn α) (params : List (String × ParamVal))
    (net : Nat → Attempt) : Except PyExn (List α) :=
  match makeRequest params net with
  | .error e => .error e
  | .ok responseData =>
    match pyGetData responseData with
    | .error e => .error e
    | .ok data => listFromData validate data

/-- get_ad_accounts, body of the try block. -/
def get_ad_accountsCore (net : Nat → Attempt) : Except PyExn (List AdAccount) :=
  listCore validateAdAccountStar [] net

/-- uber_ads_client.py get_ad_accounts: any exception from the try
block is wrapped into UberAdsAPIError with no status code. -/
def get_ad_accounts (net : Nat → Attempt) : Except PyExn (List AdAccount) :=
  match get_ad_accountsCore net with
  | .ok l => .ok l
  | .error e => .error (.apiError ("Failed to retrieve ad accounts: " ++ pyStr e) none)

/-- get_campaigns, body of the try block (after params are built). -/
def get_campaignsCore (params : List (String × ParamVal)) (net : Nat → Attempt) :
    Except PyExn (List Campaign) :=
  listCore validateCampaignStar params net

/-- uber_ads_client.py get_campaigns: options default to
GetCampaignsOptions() when None, params are built by truthiness, and
any exception from the try block is wrapped into UberAdsAPIError with
no status code. -/
def get_campaigns (_ad_account_id : String) (options : Option GetCampaignsOptions)
    (net : Nat → Attempt) : Except PyExn (List Campaign) :=
  let opts := options.getD {}
  match get_campaignsCore (buildCampaignParams opts) net with
  | .ok l => .ok l
  | .error e => .error (.apiError ("Failed to retrieve campaigns: " ++ pyStr e) none)

/-- get_campaign_details, body of the try block. -/
def get_campaign_detailsCore (net : Nat → Attempt) : Except PyExn Campaign :=
  match makeRequest [] net with
  | .error e => .error e
  | .ok responseData =>
    match pyGetData responseData with
    | .error e => .error e
    | .ok data => validateCampaignStar data

/-- uber_ads_client.py get_campaign_details. -/
def get_campaign_details (_ad_account_id _campaign_id : String)
    (net : Nat → Attempt) : Except PyExn Campaign :=
  match get_campaign_detailsCore net with
  | .ok c => .ok c
  | .error e => .error (.apiError ("Failed to retrieve campaign details: " ++ pyStr e) none)

/-- uber_ads_client.py get_campaign_stats, lines 229-241: start/end
date always sent; campaign_ids and metrics accumulate via
setdefault-append, so the key is present exactly when the list is
non-empty (and metrics only when truthy, i.e. not None and non-empty). -/
def buildStatsParams (start_date end_date : String) (campaign_ids : List String)
    (metrics : Option (List String)) : List (String × ParamVal) :=
  [("start_date", ParamVal.str start_date), ("end_date", ParamVal.str end_date)] ++
  (if campaign_ids = [] then [] else [("campaign_ids", ParamVal.strs campaign_ids)]) ++
  (match metrics with
   | some ms => if ms = [] then [] else [("metrics", ParamVal.strs ms)]
   | none => [])

/-- get_campaign_stats, body of the try block. -/
def get_campaign_statsCore (params : List (String × ParamVal)) (net : Nat → Attempt) :
    Except PyExn (List CampaignStats) :=
  listCore validateCampaignStatsStar params net

/-- uber_ads_client.py get_campaign_stats. -/
def get_campaign_stats (_ad_account_id : String) (campaign_ids : List String)
    (start_date end_date : String) (metrics : Option (List String))
    (net : Nat → Attempt) : Except PyExn (List CampaignStats) :=
  match get_campaign_statsCore (buildStatsParams start_date end_date campaign_ids metrics) net with
  | .ok l => .ok l
  | .error e => .error (.apiError ("Failed to retrieve campaign stats: " ++ pyStr e) none)

/-! ### types.py: tool argument records and their validation -/

/-- types.py GetCampaignsArgs. -/
structure GetCampaignsArgs where
  ad_account_id : String
  limit : Option Int := some 50
  offset : Option Int := some 0
  status : Option StatusFilter := none
deriving DecidableEq

/-- types.py GetCampaignDetailsArgs. -/
structure GetCampaignDetailsArgs where
  ad_account_id : String
  campaign_id : String
deriving DecidableEq

/-- types.py GetCampaignStatsArgs. -/
structure GetCampaignStatsArgs where
  ad_account_id : String
  campaign_ids : List String
  start_date : String
  end_date : String
  metrics : Option (List String) := none
deriving DecidableEq

/-- GetCampaignsArgs(**arguments): pydantic validation of the raw tool
arguments (unknown keys ignored, pydantic's default). -/
def validateGetCampaignsArgs (raw : List (String × Json)) :
    Except (List String) GetCampaignsArgs :=
  vseq (vseq (vseq (vseq
    (Except.ok GetCampaignsArgs.mk)
    (reqField raw ("ad_account_id") pStr))
    (optFieldD raw ("limit") (some 50) pInt))
    (optFieldD raw ("offset") (some 0) pInt))
    (optField raw ("status") (pLit parseStatusFilter))

/-- GetCampaignDetailsArgs(**arguments). -/
def validateGetCampaignDetailsArgs (raw : List (String × Json)) :
    Except (List String) GetCampaignDetailsArgs :=
  vseq (vseq
    (Except.ok GetCampaignDetailsArgs.mk)
    (reqField raw ("ad_account_id") pStr))
    (reqField raw ("campaign_id") pStr)

/-- GetCampaignStatsArgs(**arguments). -/
def validateGetCampaignStatsArgs (raw : List (String × Json)) :
    Except (List String) GetCampaignStatsArgs :=
  vseq (vseq (vseq (vseq (vseq
    (Except.ok GetCampaignStatsArgs.mk)
    (reqField raw ("ad_account_id") pStr))
    (reqField raw ("campaign_ids") (pList pStr)))
    (reqField raw ("start_date") pStr))
    (reqField raw ("end_date") pStr))
    (optField raw ("metrics") (pList pStr))

/-! ### server.py: handlers and dispatcher

An envelope is a CallToolResult: success with a JSON payload, or
failure with a message and isError=True.  Each handler also reports
how many times it invoked the Remote Client (0 or 1), which makes "no
remote call is attempted" a statement about the embedded code. -/

/-- The uniform result envelope. -/
inductive Envelope where
  | success : Json → Envelope
  | failure : String → Envelope

def Envelope.isError : Envelope → Bool
  | .success _ => false
  | .failure _ => true

/-- server.py handle_get_campaigns lines 100-106: the options record
built from the validated args. -/
def mkOptions (args : GetCampaignsArgs) : GetCampaignsOptions :=
  { limit := args.limit, offset := args.offset, status := args.status }

/-- server.py handle_get_ad_accounts: except UberAdsAPIError then
except Exception (no ValidationError clause on this handler). -/
def handle_get_ad_accounts (net : Nat → Attempt) : Envelope × Nat :=
  match get_ad_accounts net with
  | .ok accounts => (.success (Json.arr (accounts.map (fun a => Json.obj (adAccountDump a)))), 1)
  | .error (.apiError m _) => (.failure ("Error retrieving ad accounts: " ++ m), 1)
  | .error e => (.failure ("Unexpected error: " ++ pyStr e), 1)

/-- server.py handle_get_campaigns: validate arguments, build options,
call the client; except ValidationError, except UberAdsAPIError,
except Exception. -/
def handle_get_campaigns (raw : List (String × Json)) (net : Nat → Attempt) :
    Envelope × Nat :=
  match validateGetCampaignsArgs raw with
  | .error fields =>
    (.failure ("Invalid arguments: " ++ validationErrorText ("GetCampaignsArgs") fields), 0)
  | .ok args =>
    match get_campaigns args.ad_account_id (some (mkOptions args)) net with
    | .ok campaigns =>
      (.success (Json.arr (campaigns.map (fun c => Json.obj (campaignDump c)))), 1)
    | .error (.validationError model fields) =>
      (.failure ("Invalid arguments: " ++ validationErrorText model fields), 1)
    | .error (.apiError m _) => (.failure ("Error retrieving campaigns: " ++ m), 1)
    | .error e => (.failure ("Unexpected error: " ++ pyStr e), 1)

/-- server.py handle_get_campaign_details. -/
def handle_get_campaign_details (raw : List (String × Json)) (net : Nat → Attempt) :
    Envelope × Nat :=
  match validateGetCampaignDetailsArgs raw with
  | .error fields =>
    (.failure ("Invalid arguments: " ++ validationErrorText ("GetCampaignDetailsArgs") fields), 0)
  | .ok args =>
    match get_campaign_details args.ad_account_id args.campaign_id net with
    | .ok c => (.success (Json.obj (campaignDump c)), 1)
    | .error (.validationError model fields) =>
      (.failure ("Invalid arguments: " ++ validationErrorText model fields), 1)
    | .error (.apiError m _) => (.failure ("Error retrieving campaign details: " ++ m), 1)
    | .error e => (.failure ("Unexpected error: " ++ pyStr e), 1)

/-- server.py handle_get_campaign_stats. -/
def handle_get_campaign_stats (raw : List (String × Json)) (net : Nat → Attempt) :
    Envelope × Nat :=
  match validateGetCampaignStatsArgs raw with
  | .error fields =>
    (.failure ("Invalid arguments: " ++ validationErrorText ("GetCampaignStatsArgs") fields), 0)
  | .ok args =>
    match get_campaign_stats args.ad_account_id args.campaign_ids args.start_date
        args.end_date args.metrics net with
    | .ok stats =>
      (.success (Json.arr (stats.map (fun s => Json.obj (campaignStatsDump s)))), 1)
    | .error (.validationError model fields) =>
      (.failure ("Invalid arguments: " ++ validationErrorText model fields), 1)
    | .error (.apiError m _) => (.failure ("Error retrieving campaign stats: " ++ m), 1)
    | .error e => (.failure ("Unexpected error: " ++ pyStr e), 1)

/-- server.py call_tool lines 377-409: dispatch on the tool name; any
unrecognized name yields the unknown-tool error envelope.  The
handlers are total (each ends in a catch-all except), so the outer
except-Exception clause of call_tool has nothing left to catch and the
dispatcher always returns an envelope. -/
def call_tool (name : String) (raw : List (String × Json)) (net : Nat → Attempt) :
    Envelope × Nat :=
  if name = "get_ad_accounts" then handle_get_ad_accounts net
  else if name = "get_campaigns" then handle_get_campaigns raw net
  else if name = "get_campaign_details" then handle_get_campaign_details raw net
  else if name = "get_campaign_stats" then handle_get_campaign_stats raw net
  else (.failure ("Unknown tool: " ++ name), 0)

/-! ## Theorems -/

/-! ### C1: query parameters of get_campaigns -/

lemma mem_intParam (key : String) (ov : Option Int) (k : String) (v : ParamVal) :
    ((k, v) ∈ intParam key ov) ↔ (k = key ∧ ∃ n, ov = some n ∧ n ≠ 0 ∧ v = ParamVal.int n) := by
  cases ov with
  | none => simp [intParam, truthyInt]
  | some m =>
    by_cases h : m = 0
    · subst h; simp [intParam, truthyInt]
    · simp [intParam, truthyInt, h]

lemma mem_enumParam {α} (key : String) (render : α → String) (oa : Option α)
    (k : String) (v : ParamVal) :
    ((k, v) ∈ enumParam key render oa) ↔
      (k = key ∧ ∃ a, oa = some a ∧ v = ParamVal.str (render a)) := by
  cases oa <;> simp [enumParam]

lemma statusFilter_render_inj (a b : StatusFilter) : a.render = b.render ↔ a = b := by
  cases a <;> cases b <;> simp [StatusFilter.render]

lemma sortBy_render_inj (a b : SortBy) : a.render = b.render ↔ a = b := by
  cases a <;> cases b <;> simp [SortBy.render]

lemma sortOrder_render_inj (a b : SortOrder) : a.render = b.render ↔ a = b := by
  cases a <;> cases b <;> simp [SortOrder.render]

/-- C1, counterexample.  On the default options record (limit 50,
offset 0, both present), the code sends only limit: the offset test
`if options.offset:` is Python truthiness and 0 is falsy, so the
default offset is omitted, while the claim requires both limit and
offset default values to be sent. -/
theorem c1_counterexample :
    buildCampaignParams {} = [("limit", ParamVal.int 50)] ∧
    specCampaignParamsC1 {} = [("limit", ParamVal.int 50), ("offset", ParamVal.int 0)] ∧
    buildCampaignParams {} ≠ specCampaignParamsC1 {} := by
  refine ⟨rfl, rfl, by decide⟩

/-- C1, amended.  For every options record, the query built by
get_campaigns contains a parameter exactly when its value is truthy:
limit and offset appear iff set and nonzero (so the default limit 50
is sent, but offset 0 — default or explicit — and an explicit limit 0
are omitted); status, sort_by and sort_order appear iff set; and no
key outside these five ever appears. -/
theorem c1_params_truthiness (o : GetCampaignsOptions) :
    (∀ n : Int, (("limit", ParamVal.int n) ∈ buildCampaignParams o) ↔
      (o.limit = some n ∧ n ≠ 0)) ∧
    (∀ n : Int, (("offset", ParamVal.int n) ∈ buildCampaignParams o) ↔
      (o.offset = some n ∧ n ≠ 0)) ∧
    (∀ f : StatusFilter, (("status", ParamVal.str f.render) ∈ buildCampaignParams o) ↔
      o.status = some f) ∧
    (∀ f : SortBy, (("sort_by", ParamVal.str f.render) ∈ buildCampaignParams o) ↔
      o.sort_by = some f) ∧
    (∀ f : SortOrder, (("sort_order", ParamVal.str f.render) ∈ buildCampaignParams o) ↔
      o.sort_order = some f) ∧
    (∀ k v, (k, v) ∈ buildCampaignParams o →
      k ∈ ["limit", "offset", "status", "sort_by", "sort_order"]) := by
  refine ⟨?_, ?_, ?_, ?_, ?_, ?_⟩
  · intro n
    simp [buildCampaignParams, mem_intParam, mem_enumParam]
  · intro n
    simp [buildCampaignParams, mem_intParam, mem_enumParam]
  · intro f
    simp [buildCampaignParams, mem_intParam, mem_enumParam, statusFilter_render_inj]
  · intro f
    simp [buildCampaignParams, mem_intParam, mem_enumParam, sortBy_render_inj]
  · intro f
    simp [buildCampaignParams, mem_intParam, mem_enumParam, sortOrder_render_inj]
  · intro k v h
    simp [buildCampaignParams, mem_intParam, mem_enumParam] at h
    rcases h with h | h | h | h | h <;> simp [h.1]

/-- C1, witness: on the default options record the amended theorem
puts limit 50 in the query and keeps offset 0 out of it. -/
theorem c1_params_truthiness_witness :
    (("limit", ParamVal.int 50) ∈ buildCampaignParams {}) ∧
    ¬ (("offset", ParamVal.int 0) ∈ buildCampaignParams {}) := by
  constructor
  · exact (c1_params_truthiness {}).1 50 |>.mpr ⟨rfl, by decide⟩
  · intro h
    exact absurd (((c1_params_truthiness {}).2.1 0).mp h).2 (by simp)

/-! ### C2: retry policy -/

/-- An attempt outcome that the retry strategy classifies as
retriable: a transient status or an outright connection failure. -/
def isTransientFail : Attempt → Bool
  | .resp c _ => transient c
  | .connFail => true

lemma retryLoop_exhausts (net : Nat → Attempt)
    (h : ∀ j, isTransientFail (net j) = true) :
    ∀ left i, retryLoop net i left = .exhausted (i + left + 1) := by
  intro left
  induction left with
  | zero =>
    intro i
    have hj := h i
    cases hnet : net i with
    | resp c body =>
      have ht : transient c = true := by simpa [isTransientFail, hnet] using hj
      simp [retryLoop, hnet, ht]
    | connFail => simp [retryLoop, hnet]
  | succ l ih =>
    intro i
    have hj := h i
    cases hnet : net i with
    | resp c body =>
      have ht : transient c = true := by simpa [isTransientFail, hnet] using hj
      rw [retryLoop, hnet]
      simp [ht, ih (i + 1)]
      omega
    | connFail =>
      rw [retryLoop, hnet]
      simp [ih (i + 1)]
      omega

/-- C2, counterexample.  A remote that answers 503 on every attempt is
hit 4 times, not 3: Retry(total=3) is a budget of 3 RETRIES after the
initial attempt, so the session makes 1 + 3 = 4 attempts before
raising. -/
theorem c2_counterexample :
    attemptsOf (sessionRequest (fun _ => Attempt.resp 503 Body.empty)) = 4 ∧
    ¬ attemptsOf (sessionRequest (fun _ => Attempt.resp 503 Body.empty)) = 3 := by
  constructor <;> decide

/-- C2, amended.  When every attempt fails transiently (a status in
the forcelist 429/500/502/503/504 or a connection failure), the
session makes exactly 4 total attempts — the initial attempt retried
up to 3 additional times — and _make_request surfaces a
UberAdsAPIError (the RetryError path, with no status code); when the
first response has any non-transient status (in particular every 4xx
other than 429), exactly one attempt is made with no retry. -/
theorem c2_retry_attempts (net : Nat → Attempt) :
    ((∀ j, isTransientFail (net j) = true) →
      sessionRequest net = .exhausted 4 ∧
      ∀ params, makeRequest params net =
        .error (.apiError ("Request error: " ++ retryExhaustedText) none)) ∧
    (∀ status body, net 0 = .resp status body → transient status = false →
      sessionRequest net = .response status body 1) := by
  constructor
  · intro h
    have hs : sessionRequest net = .exhausted 4 := by
      simpa [sessionRequest] using retryLoop_exhausts net h 3 0
    exact ⟨hs, fun params => by simp [makeRequest, hs]⟩
  · intro status body h0 ht
    simp [sessionRequest, retryLoop, h0, ht]

/-- C2, witness: an all-503 remote exhausts the budget after 4
attempts; a 404 on the first attempt is not retried. -/
theorem c2_retry_attempts_witness :
    sessionRequest (fun _ => Attempt.resp 503 Body.empty) = .exhausted 4 ∧
    sessionRequest (fun _ => Attempt.resp 404 Body.empty) = .response 404 Body.empty 1 := by
  constructor
  · exact ((c2_retry_attempts (fun _ => Attempt.resp 503 Body.empty)).1 (fun j => by decide)).1
  · exact (c2_retry_attempts (fun _ => Attempt.resp 404 Body.empty)).2 404 Body.empty rfl (by decide)

/-! ### C3: argument validation against unknown and mistyped fields -/

lemma jlookup_cons_ne (k k' : String) (v : Json) (raw : List (String × Json))
    (h : ¬ k = k') : jlookup ((k, v) :: raw) k' = jlookup raw k' := by
  simp [jlookup, h]

lemma vseq_error_left_mem {α β : Type} (x : String) (f : Except (List String) (α → β))
    (a : Except (List String) α) (h : ∃ e, f = .error e ∧ x ∈ e) :
    ∃ e', vseq f a = .error e' ∧ x ∈ e' := by
  obtain ⟨e, hf, hx⟩ := h
  subst hf
  cases a with
  | ok _ => exact ⟨e, rfl, hx⟩
  | error e2 => exact ⟨e ++ e2, rfl, List.mem_append_left _ hx⟩

/-- C3, counterexample.  A mapping with the undeclared field "bogus"
is NOT rejected: pydantic's default is extra="ignore", so validation
succeeds and the remote call is attempted (one client invocation). -/
theorem c3_counterexample :
    validateGetCampaignsArgs
        [("ad_account_id", Json.str "acct-1"), ("bogus", Json.num 5)] =
      .ok { ad_account_id := "acct-1", limit := some 50, offset := some 0,
            status := none } ∧
    (handle_get_campaigns
        [("ad_account_id", Json.str "acct-1"), ("bogus", Json.num 5)]
        (fun _ => Attempt.resp 200 (Body.json (Json.obj [("data", Json.arr [])])))).2
      = 1 := by
  exact ⟨rfl, rfl⟩

/-- C3, amended.  Unknown fields are silently ignored (adding an
undeclared key never changes the validation outcome), while a
declared field whose value cannot be coerced to its declared type
(e.g. a number where the required string ad_account_id is expected) is
rejected with that field reported, and a rejected mapping never
reaches the Remote Client. -/
theorem c3_unknown_ignored_mistyped_rejected :
    (∀ raw (k : String) (v : Json),
      ¬ k ∈ ["ad_account_id", "limit", "offset", "status"] →
      validateGetCampaignsArgs ((k, v) :: raw) = validateGetCampaignsArgs raw) ∧
    (∀ raw (q : Rat), jlookup raw "ad_account_id" = some (Json.num q) →
      ∃ fs, validateGetCampaignsArgs raw = .error fs ∧ "ad_account_id" ∈ fs) ∧
    (∀ raw net fs, validateGetCampaignsArgs raw = .error fs →
      (handle_get_campaigns raw net).2 = 0) := by
  refine ⟨?_, ?_, ?_⟩
  · intro raw k v h
    simp at h
    obtain ⟨h1, h2, h3, h4⟩ := h
    have e1 := jlookup_cons_ne k ("ad_account_id") v raw h1
    have e2 := jlookup_cons_ne k ("limit") v raw h2
    have e3 := jlookup_cons_ne k ("offset") v raw h3
    have e4 := jlookup_cons_ne k ("status") v raw h4
    simp [validateGetCampaignsArgs, reqField, optFieldD, optField, e1, e2, e3, e4]
  · intro raw q h
    have hE : reqField raw ("ad_account_id") pStr = .error ["ad_account_id"] := by
      simp [reqField, h, pStr]
    have h1 : ∃ e, vseq (Except.ok GetCampaignsArgs.mk)
        (reqField raw ("ad_account_id") pStr) = .error e ∧ "ad_account_id" ∈ e := by
      refine ⟨["ad_account_id"], ?_, by simp⟩
      simp [vseq, hE]
    have h2 := vseq_error_left_mem ("ad_account_id") _
      (optFieldD raw ("limit") (some 50) pInt) h1
    have h3 := vseq_error_left_mem ("ad_account_id") _
      (optFieldD raw ("offset") (some 0) pInt) h2
    exact vseq_error_left_mem ("ad_account_id") _
      (optField raw ("status") (pLit parseStatusFilter)) h3
  · intro raw net fs h
    simp [handle_get_campaigns, h]

/-- C3, witness: adding "bogus" leaves validation unchanged, a numeric
ad_account_id is rejected, and a failed validation performs no client
call. -/
theorem c3_unknown_ignored_mistyped_rejected_witness :
    validateGetCampaignsArgs
        (("bogus", Json.num 5) :: [("ad_account_id", Json.str "a")]) =
      validateGetCampaignsArgs [("ad_account_id", Json.str "a")] ∧
    (∃ fs, validateGetCampaignsArgs [("ad_account_id", Json.num 3)] = .error fs ∧
      "ad_account_id" ∈ fs) ∧
    (handle_get_campaigns [] (fun _ => Attempt.connFail)).2 = 0 := by
  refine ⟨?_, ?_, ?_⟩
  · exact c3_unknown_ignored_mistyped_rejected.1 _ "bogus" (Json.num 5) (by decide)
  · exact c3_unknown_ignored_mistyped_rejected.2.1 _ 3 rfl
  · exact c3_unknown_ignored_mistyped_rejected.2.2 [] _ ["ad_account_id"] rfl

/-! ### C5: validation-failure envelope -/

/-- C5.  Whenever argument validation of a get_campaigns invocation
fails, the handler returns an error envelope (isError true) whose
message is "Invalid arguments: " followed by the pydantic rendering
that lists the offending fields, and the Remote Client is never
invoked (zero client calls). -/
theorem c5_invalid_args_envelope (raw : List (String × Json)) (net : Nat → Attempt)
    (fs : List String) (h : validateGetCampaignsArgs raw = .error fs) :
    handle_get_campaigns raw net =
      (.failure ("Invalid arguments: " ++ validationErrorText ("GetCampaignsArgs") fs), 0) ∧
    (handle_get_campaigns raw net).1.isError = true := by
  constructor
  · simp [handle_get_campaigns, h]
  · simp [handle_get_campaigns, h, Envelope.isError]

/-- C5, witness: invoke("get_campaigns", ⦃⦄) — the empty mapping,
missing the required ad_account_id — yields the invalid-arguments
error envelope naming ad_account_id, with zero client calls. -/
theorem c5_invalid_args_envelope_witness :
    handle_get_campaigns [] (fun _ => Attempt.connFail) =
      (.failure ("Invalid arguments: " ++
        validationErrorText ("GetCampaignsArgs") ["ad_account_id"]), 0) :=
  (c5_invalid_args_envelope [] (fun _ => Attempt.connFail) ["ad_account_id"] rfl).1

/-! ### C6: unknown tool names and envelope totality -/

/-- C6.  For every operation name outside the four recognized tools,
call_tool returns the error envelope with message "Unknown tool: "
followed by the name (and performs no client call); and for every name
and argument mapping whatsoever the dispatcher returns an envelope —
success or failure — as the handlers and the dispatcher are total, so
no exception reaches the transport layer. -/
theorem c6_unknown_tool_envelope :
    (∀ (name : String) raw net,
      ¬ name ∈ ["get_ad_accounts", "get_campaigns", "get_campaign_details",
        "get_campaign_stats"] →
      call_tool name raw net = (.failure ("Unknown tool: " ++ name), 0) ∧
      (call_tool name raw net).1.isError = true) ∧
    (∀ (name : String) raw net,
      (∃ p, (call_tool name raw net).1 = .success p) ∨
      (∃ m, (call_tool name raw net).1 = .failure m)) := by
  constructor
  · intro name raw net h
    simp at h
    obtain ⟨h1, h2, h3, h4⟩ := h
    constructor
    · simp [call_tool, h1, h2, h3, h4]
    · simp [call_tool, h1, h2, h3, h4, Envelope.isError]
  · intro name raw net
    cases hE : (call_tool name raw net).1 with
    | success p => exact Or.inl ⟨p, rfl⟩
    | failure m => exact Or.inr ⟨m, rfl⟩

/-- C6, witness: invoke("nonexistent_tool", ⦃⦄) yields the unknown-tool
error envelope. -/
theorem c6_unknown_tool_envelope_witness :
    call_tool "nonexistent_tool" [] (fun _ => Attempt.connFail) =
      (.failure ("Unknown tool: " ++ "nonexistent_tool"), 0) :=
  (c6_unknown_tool_envelope.1 "nonexistent_tool" [] (fun _ => Attempt.connFail)
    (by decide)).1

/-! ### C4: response-shape normalization -/

lemma transient_of_success (st : Nat) (h2 : 200 ≤ st) (h3 : st < 300) :
    transient st = false := by
  simp [transient]
  omega

lemma makeRequest_success (net : Nat → Attempt) (j : Json)
    (params : List (String × ParamVal)) (st : Nat)
    (h0 : net 0 = .resp st (.json j)) (h2 : 200 ≤ st) (h3 : st < 300) :
    makeRequest params net = .ok j := by
  have hnt : transient st = false := transient_of_success st h2 h3
  have hs : sessionRequest net = .response st (.json j) 1 := by
    simp [sessionRequest, retryLoop, h0, hnt]
  have hno : ¬ (400 ≤ st ∧ st < 600) := by omega
  simp [makeRequest, hs, hno]

lemma mapStar_length {α} (validate : Json → Except PyExn α) :
    ∀ l xs, mapStar validate l = .ok xs → xs.length = l.length := by
  intro l
  induction l with
  | nil =>
    intro xs h
    simp [mapStar] at h
    simp [← h]
  | cons j js ih =>
    intro xs h
    cases hv : validate j with
    | error e => simp [mapStar, hv] at h
    | ok a =>
      cases hr : mapStar validate js with
      | error e => simp [mapStar, hv, hr] at h
      | ok rest =>
        simp [mapStar, hv, hr] at h
        simp [← h, ih rest hr]

lemma listCore_data_list {α} (validate : Json → Except PyExn α)
    (params : List (String × ParamVal)) (net : Nat → Attempt) (st : Nat)
    (l : List Json) (xs : List α)
    (h0 : net 0 = .resp st (.json (Json.obj [("data", Json.arr l)])))
    (h2 : 200 ≤ st) (h3 : st < 300) (hm : mapStar validate l = .ok xs) :
    listCore validate params net = .ok xs := by
  have hmr := makeRequest_success net _ params st h0 h2 h3
  simp [listCore, hmr, pyGetData, jlookup, listFromData, hm]

lemma listCore_single (α : Type) (validate : Json → Except PyExn α)
    (params : List (String × ParamVal)) (net : Nat → Attempt) (st : Nat)
    (fs : List (String × Json)) (x : α)
    (h0 : net 0 = .resp st (.json (Json.obj fs)))
    (h2 : 200 ≤ st) (h3 : st < 300)
    (hnd : jlookup fs "data" = none)
    (hv : validate (Json.obj fs) = .ok x) :
    listCore validate params net = .ok [x] := by
  have hmr := makeRequest_success net _ params st h0 h2 h3
  simp [listCore, hmr, pyGetData, hnd, listFromData, hv]

lemma listCore_data_single (α : Type) (validate : Json → Except PyExn α)
    (params : List (String × ParamVal)) (net : Nat → Attempt) (st : Nat)
    (gs : List (String × Json)) (x : α)
    (h0 : net 0 = .resp st (.json (Json.obj [("data", Json.obj gs)])))
    (h2 : 200 ≤ st) (h3 : st < 300)
    (hv : validate (Json.obj gs) = .ok x) :
    listCore validate params net = .ok [x] := by
  have hmr := makeRequest_success net _ params st h0 h2 h3
  simp [listCore, hmr, pyGetData, jlookup, listFromData, hv]

lemma listCore_bare_list (α : Type) (validate : Json → Except PyExn α)
    (params : List (String × ParamVal)) (net : Nat → Attempt) (st : Nat)
    (l : List Json)
    (h0 : net 0 = .resp st (.json (Json.arr l)))
    (h2 : 200 ≤ st) (h3 : st < 300) :
    listCore validate params net =
      .error (.attributeError ("object has no attribute get")) := by
  have hmr := makeRequest_success net _ params st h0 h2 h3
  simp [listCore, hmr, pyGetData]

/-- A concrete valid Campaign entity used as a test fixture. -/
def sampleCampaign : Campaign :=
  { id := "c1", name := "Camp A", status := .ACTIVE, objective := "awareness",
    budget_type := .DAILY, daily_budget := some 100,
    start_time := "2024-01-01T00:00:00Z",
    created_at := "2024-01-01T00:00:00Z", updated_at := "2024-01-02T00:00:00Z" }

/-- The JSON object representing sampleCampaign. -/
def sampleCampaignJson : Json := Json.obj (campaignDump sampleCampaign)

/-- C4, counterexample.  A 2xx response whose body is a bare JSON list
of valid campaign objects — a shape the claim covers ("a list of
objects ... possibly wrapped under a data key") — is not normalized to
a list of entities: response_data.get raises AttributeError on a list,
so get_campaigns surfaces a wrapped UberAdsAPIError instead. -/
theorem c4_counterexample :
    validateCampaignStar sampleCampaignJson = .ok sampleCampaign ∧
    get_campaigns "acct-1" none
        (fun _ => Attempt.resp 200 (Body.json (Json.arr [sampleCampaignJson]))) =
      .error (.apiError ("Failed to retrieve campaigns: object has no attribute get") none) := by
  exact ⟨rfl, rfl⟩

/-- C4, amended.  For every 2xx remote response whose body is a JSON
OBJECT — a single entity object, or an object wrapping an entity or
an entity list under "data" — each of the three list-returning
operations returns a list of validated entities (one per element of a
wrapped list, a one-element list for a single object); but a body that
is a bare top-level JSON list is not normalized: it raises
AttributeError inside the try block and the operation surfaces a
wrapped UberAdsAPIError. -/
theorem c4_shape_normalization :
    (∀ net st l cs, net 0 = .resp st (.json (Json.obj [("data", Json.arr l)])) →
      200 ≤ st → st < 300 → mapStar validateAdAccountStar l = .ok cs →
      get_ad_accounts net = .ok cs ∧ cs.length = l.length) ∧
    (∀ net st fs a, net 0 = .resp st (.json (Json.obj fs)) →
      200 ≤ st → st < 300 → jlookup fs "data" = none →
      validateAdAccountStar (Json.obj fs) = .ok a →
      get_ad_accounts net = .ok [a]) ∧
    (∀ net st gs a, net 0 = .resp st (.json (Json.obj [("data", Json.obj gs)])) →
      200 ≤ st → st < 300 → validateAdAccountStar (Json.obj gs) = .ok a →
      get_ad_accounts net = .ok [a]) ∧
    (∀ net st l, net 0 = .resp st (.json (Json.arr l)) → 200 ≤ st → st < 300 →
      get_ad_accounts net =
        .error (.apiError ("Failed to retrieve ad accounts: object has no attribute get") none)) ∧
    (∀ aid opts net st l cs, net 0 = .resp st (.json (Json.obj [("data", Json.arr l)])) →
      200 ≤ st → st < 300 → mapStar validateCampaignStar l = .ok cs →
      get_campaigns aid opts net = .ok cs ∧ cs.length = l.length) ∧
    (∀ aid opts net st fs c, net 0 = .resp st (.json (Json.obj fs)) →
      200 ≤ st → st < 300 → jlookup fs "data" = none →
      validateCampaignStar (Json.obj fs) = .ok c →
      get_campaigns aid opts net = .ok [c]) ∧
    (∀ aid opts net st gs c, net 0 = .resp st (.json (Json.obj [("data", Json.obj gs)])) →
      200 ≤ st → st < 300 → validateCampaignStar (Json.obj gs) = .ok c →
      get_campaigns aid opts net = .ok [c]) ∧
    (∀ aid opts net st l, net 0 = .resp st (.json (Json.arr l)) → 200 ≤ st → st < 300 →
      get_campaigns aid opts net =
        .error (.apiError ("Failed to retrieve campaigns: object has no attribute get") none)) ∧
    (∀ aid ids sd ed ms net st l cs,
      net 0 = .resp st (.json (Json.obj [("data", Json.arr l)])) →
      200 ≤ st → st < 300 → mapStar validateCampaignStatsStar l = .ok cs →
      get_campaign_stats aid ids sd ed ms net = .ok cs ∧ cs.length = l.length) ∧
    (∀ aid ids sd ed ms net st fs s, net 0 = .resp st (.json (Json.obj fs)) →
      200 ≤ st → st < 300 → jlookup fs "data" = none →
      validateCampaignStatsStar (Json.obj fs) = .ok s →
      get_campaign_stats aid ids sd ed ms net = .ok [s]) ∧
    (∀ aid ids sd ed ms net st gs s,
      net 0 = .resp st (.json (Json.obj [("data", Json.obj gs)])) →
      200 ≤ st → st < 300 → validateCampaignStatsStar (Json.obj gs) = .ok s →
      get_campaign_stats aid ids sd ed ms net = .ok [s]) ∧
    (∀ aid ids sd ed ms net st l, net 0 = .resp st (.json (Json.arr l)) →
      200 ≤ st → st < 300 →
      get_campaign_stats aid ids sd ed ms net =
        .error (.apiError ("Failed to retrieve campaign stats: object has no attribute get") none)) := by
  refine ⟨?_, ?_, ?_, ?_, ?_, ?_, ?_, ?_, ?_, ?_, ?_, ?_⟩
  · intro net st l cs h0 h2 h3 hm
    have hc := listCore_data_list validateAdAccountStar [] net st l cs h0 h2 h3 hm
    exact ⟨by simp [get_ad_accounts, get_ad_accountsCore, hc],
      mapStar_length validateAdAccountStar l cs hm⟩
  · intro net st fs a h0 h2 h3 hnd hv
    have hc := listCore_single _ validateAdAccountStar [] net st fs a h0 h2 h3 hnd hv
    simp [get_ad_accounts, get_ad_accountsCore, hc]
  · intro net st gs a h0 h2 h3 hv
    have hc := listCore_data_single _ validateAdAccountStar [] net st gs a h0 h2 h3 hv
    simp [get_ad_accounts, get_ad_accountsCore, hc]
  · intro net st l h0 h2 h3
    have hc := listCore_bare_list _ validateAdAccountStar [] net st l h0 h2 h3
    simp [get_ad_accounts, get_ad_accountsCore, hc, pyStr]
  · intro aid opts net st l cs h0 h2 h3 hm
    have hc := listCore_data_list validateCampaignStar
      (buildCampaignParams (opts.getD {})) net st l cs h0 h2 h3 hm
    exact ⟨by simp [get_campaigns, get_campaignsCore, hc],
      mapStar_length validateCampaignStar l cs hm⟩
  · intro aid opts net st fs c h0 h2 h3 hnd hv
    have hc := listCore_single _ validateCampaignStar
      (buildCampaignParams (opts.getD {})) net st fs c h0 h2 h3 hnd hv
    simp [get_campaigns, get_campaignsCore, hc]
  · intro aid opts net st gs c h0 h2 h3 hv
    have hc := listCore_data_single _ validateCampaignStar
      (buildCampaignParams (opts.getD {})) net st gs c h0 h2 h3 hv
    simp [get_campaigns, get_campaignsCore, hc]
  · intro aid opts net st l h0 h2 h3
    have hc := listCore_bare_list _ validateCampaignStar
      (buildCampaignParams (opts.getD {})) net st l h0 h2 h3
    simp [get_campaigns, get_campaignsCore, hc, pyStr]
  · intro aid ids sd ed ms net st l cs h0 h2 h3 hm
    have hc := listCore_data_list validateCampaignStatsStar
      (buildStatsParams sd ed ids ms) net st l cs h0 h2 h3 hm
    exact ⟨by simp [get_campaign_stats, get_campaign_statsCore, hc],
      mapStar_length validateCampaignStatsStar l cs hm⟩
  · intro aid ids sd ed ms net st fs s h0 h2 h3 hnd hv
    have hc := listCore_single _ validateCampaignStatsStar
      (buildStatsParams sd ed ids ms) net st fs s h0 h2 h3 hnd hv
    simp [get_campaign_stats, get_campaign_statsCore, hc]
  · intro aid ids sd ed ms net st gs s h0 h2 h3 hv
    have hc := listCore_data_single _ validateCampaignStatsStar
      (buildStatsParams sd ed ids ms) net st gs s h0 h2 h3 hv
    simp [get_campaign_stats, get_campaign_statsCore, hc]
  · intro aid ids sd ed ms net st l h0 h2 h3
    have hc := listCore_bare_list _ validateCampaignStatsStar
      (buildStatsParams sd ed ids ms) net st l h0 h2 h3
    simp [get_campaign_stats, get_campaign_statsCore, hc, pyStr]

/-- C4, witness: a wrapped one-element campaign list and a bare single
campaign object both normalize to the one-element entity list. -/
theorem c4_shape_normalization_witness :
    get_campaigns "acct-1" none
        (fun _ => Attempt.resp 200
          (Body.json (Json.obj [("data", Json.arr [sampleCampaignJson])]))) =
      .ok [sampleCampaign] ∧
    get_campaigns "acct-1" none
        (fun _ => Attempt.resp 200 (Body.json sampleCampaignJson)) =
      .ok [sampleCampaign] := by
  constructor
  · exact ((c4_shape_normalization.2.2.2.2.1 "acct-1" none _ 200 [sampleCampaignJson]
      [sampleCampaign] rfl (by decide) (by decide) rfl)).1
  · exact c4_shape_normalization.2.2.2.2.2.1 "acct-1" none _ 200
      (campaignDump sampleCampaign) sampleCampaign rfl (by decide) (by decide) rfl rfl

/-! ### C9: Campaign serialization round-trip -/

lemma parseCampaignStatus_render (s : CampaignStatus) :
    parseCampaignStatus s.render = some s := by cases s <;> rfl

lemma parseBudgetType_render (b : BudgetType) :
    parseBudgetType b.render = some b := by cases b <;> rfl

lemma parseLocationType_render (t : LocationType) :
    parseLocationType t.render = some t := by cases t <;> rfl

lemma parseGender_render (g : Gender) : parseGender g.render = some g := by
  cases g <;> rfl

lemma parseAssetType_render (t : AssetType) : parseAssetType t.render = some t := by
  cases t <;> rfl

lemma parseCreativeType_render (t : CreativeType) :
    parseCreativeType t.render = some t := by cases t <;> rfl

lemma oList_rt {α} (p : Json → Option α) (f : α → Json)
    (h : ∀ a, p (f a) = some a) : ∀ l : List α, oList p (l.map f) = some l := by
  intro l
  induction l with
  | nil => rfl
  | cons a as ih => simp [oList, h a, ih]

lemma oMap_rt {α} (p : Json → Option α) (f : α → Json)
    (h : ∀ a, p (f a) = some a) :
    ∀ d : List (String × α), oMap p (d.map (fun kv => (kv.1, f kv.2))) = some d := by
  intro d
  induction d with
  | nil => rfl
  | cons kv rest ih => simp [oMap, h kv.2, ih]

lemma pLit_gender_rt (g : Gender) : pLit parseGender (Json.str g.render) = some g := by
  simp [pLit, parseGender_render]

lemma pStr_str (s : String) : pStr (Json.str s) = some s := rfl

lemma pInt_jInt (n : Int) : pInt (jInt n) = some n := rfl

lemma isNull_null : Json.isNull Json.null = true := rfl
lemma isNull_str (s : String) : (Json.str s).isNull = false := rfl
lemma isNull_num (q : Rat) : (Json.num q).isNull = false := rfl
lemma isNull_arr (l : List Json) : (Json.arr l).isNull = false := rfl
lemma isNull_obj (fs : List (String × Json)) : (Json.obj fs).isNull = false := rfl
lemma isNull_jInt (n : Int) : (jInt n).isNull = false := rfl

lemma isNull_dumpDemo (d : DemographicTargeting) :
    (dumpDemographicTargeting d).isNull = false := rfl

lemma isNull_dumpTargeting (t : CampaignTargeting) :
    (dumpCampaignTargeting t).isNull = false := rfl

lemma rt_loc (l : LocationTargeting) :
    pLocationTargeting (dumpLocationTargeting l) = some l := by
  obtain ⟨t, v, r⟩ := l
  cases r <;>
    simp [pLocationTargeting, dumpLocationTargeting, oReq, oOpt, jlookup, pStr, pLit,
      parseLocationType_render, jOpt, isNull_null, isNull_jInt, pInt_jInt]

lemma rt_demo (d : DemographicTargeting) :
    pDemographicTargeting (dumpDemographicTargeting d) = some d := by
  obtain ⟨amin, amax, gs⟩ := d
  cases amin <;> cases amax <;> cases gs <;>
    simp [pDemographicTargeting, dumpDemographicTargeting, oOpt, jlookup, jOpt, jOptList,
      isNull_null, isNull_jInt, isNull_arr, pInt_jInt, pList,
      oList_rt (pLit parseGender) (fun g => Json.str g.render) pLit_gender_rt]

lemma rt_targeting (t : CampaignTargeting) :
    pCampaignTargeting (dumpCampaignTargeting t) = some t := by
  obtain ⟨locs, demo, ints, behs⟩ := t
  cases locs <;> cases demo <;> cases ints <;> cases behs <;>
    simp [pCampaignTargeting, dumpCampaignTargeting, oOpt, jlookup, jOpt, jOptList,
      isNull_null, isNull_arr, isNull_dumpDemo, pList, rt_demo,
      oList_rt pLocationTargeting dumpLocationTargeting rt_loc,
      oList_rt pStr Json.str pStr_str]

lemma rt_asset (a : CreativeAsset) : pCreativeAsset (dumpCreativeAsset a) = some a := by
  obtain ⟨i, t, u, tx, d⟩ := a
  cases u <;> cases tx <;> cases d <;>
    simp [pCreativeAsset, dumpCreativeAsset, oReq, oOpt, jlookup, jOpt, pStr, pLit,
      parseAssetType_render, pIntMap, isNull_null, isNull_str, isNull_obj,
      oMap_rt pInt jInt pInt_jInt]

lemma rt_spec (s : CreativeSpec) : pCreativeSpec (dumpCreativeSpec s) = some s := by
  obtain ⟨i, n, t, assets⟩ := s
  simp [pCreativeSpec, dumpCreativeSpec, oReq, jlookup, pStr, pLit,
    parseCreativeType_render, pList,
    oList_rt pCreativeAsset dumpCreativeAsset rt_asset]

/-- C9.  Serializing any validated Campaign entity with model_dump
(json.dumps followed by json.loads is the identity on such values) and
re-validating the result against the Campaign schema reproduces an
entity equal to the original. -/
theorem c9_campaign_roundtrip (c : Campaign) :
    validateCampaignFields (campaignDump c) = .ok c ∧
    validateCampaignStar (Json.obj (campaignDump c)) = .ok c := by
  have h : validateCampaignFields (campaignDump c) = .ok c := by
    obtain ⟨i, n, st, ob, bt, db, lb, sti, et, ca, ua, tg, cs⟩ := c
    cases db <;> cases lb <;> cases et <;> cases tg <;> cases cs <;>
      simp [validateCampaignFields, campaignDump, jlookup, reqField, optField, optFieldD,
        vseq, pStr, pRat, pLit, jOpt, jOptList, pList,
        isNull_null, isNull_str, isNull_num, isNull_arr, isNull_dumpTargeting,
        parseCampaignStatus_render, parseBudgetType_render, rt_targeting,
        oList_rt pCreativeSpec dumpCreativeSpec rt_spec]
  exact ⟨h, by simp [validateCampaignStar, starValidate, h]⟩

/-! ### C7: error translation -/

lemma responseTruthy_of_error (st : Nat) (h4 : 400 ≤ st) :
    responseTruthy st = false := by
  simp [responseTruthy]
  omega

lemma makeRequest_httpError (net : Nat → Attempt) (params : List (String × ParamVal))
    (st : Nat) (body : Body) (h0 : net 0 = .resp st body)
    (h4 : 400 ≤ st) (h6 : st < 600) (hnt : transient st = false) :
    makeRequest params net =
      .error (.apiError ("Uber Ads API error: " ++ strHTTPError st) none) := by
  have hs : sessionRequest net = .response st body 1 := by
    simp [sessionRequest, retryLoop, h0, hnt]
  have hrt := responseTruthy_of_error st h4
  simp [makeRequest, hs, h4, h6, httpErrorMessage, httpErrorStatusCode, errorDataOf,
    hrt, messageChain, jlookup]

lemma listCore_error {α} (validate : Json → Except PyExn α)
    (params : List (String × ParamVal)) (net : Nat → Attempt) (e : PyExn)
    (h : makeRequest params net = .error e) :
    listCore validate params net = .error e := by
  simp [listCore, h]

/-- C7, counterexample.  A 404 whose body parses with an
error.message field: the code's `if e.response` tests are requests
truthiness (Response.ok, false for every error status), so the body's
error.message "nope" is never extracted — the message is the raw
str(e) — and status_code is None already at the _make_request level;
the public operation then re-wraps with its "Failed to retrieve
campaigns: " prefix, still with no status code.  The claimed result
(message "nope", status 404) is not what the code produces. -/
theorem c7_counterexample :
    makeRequest []
        (fun _ => Attempt.resp 404
          (Body.json (Json.obj [("error", Json.obj [("message", Json.str "nope")])]))) =
      .error (.apiError ("Uber Ads API error: " ++ strHTTPError 404) none) ∧
    get_campaigns "acct-1" none
        (fun _ => Attempt.resp 404
          (Body.json (Json.obj [("error", Json.obj [("message", Json.str "nope")])]))) =
      .error (.apiError ("Failed to retrieve campaigns: " ++
        ("Uber Ads API error: " ++ strHTTPError 404)) none) ∧
    ¬ makeRequest []
        (fun _ => Attempt.resp 404
          (Body.json (Json.obj [("error", Json.obj [("message", Json.str "nope")])]))) =
      .error (.apiError ("Uber Ads API error: nope") (some 404)) := by
  refine ⟨rfl, rfl, ?_⟩
  intro h
  rw [show makeRequest []
      (fun _ => Attempt.resp 404
        (Body.json (Json.obj [("error", Json.obj [("message", Json.str "nope")])]))) =
    .error (.apiError ("Uber Ads API error: " ++ strHTTPError 404) none) from rfl] at h
  simp at h

/-- C7, amended.  Every transport failure, non-2xx status or decode
failure is wrapped into a single UberAdsAPIError, but its message is
always built from the raw error text str(e) and its status_code is
always None: the `if e.response` guards at lines 88-90 are requests
truthiness (Response.ok), false for every error status, so the
error-body parse and the status-code attachment are dead code even at
the _make_request level; the public operations additionally re-wrap
the error with a "Failed to retrieve ...: " prefix (still without a
status code). -/
theorem c7_error_translation :
    (∀ st body, 400 ≤ st →
      responseTruthy st = false ∧
      httpErrorStatusCode st = none ∧
      httpErrorMessage st body = strHTTPError st) ∧
    (∀ net params st body, net 0 = .resp st body → 400 ≤ st → st < 600 →
      transient st = false →
      makeRequest params net =
        .error (.apiError ("Uber Ads API error: " ++ strHTTPError st) none)) ∧
    (∀ net st body aid opts, net 0 = .resp st body → 400 ≤ st → st < 600 →
      transient st = false →
      get_campaigns aid opts net =
        .error (.apiError ("Failed to retrieve campaigns: " ++
          ("Uber Ads API error: " ++ strHTTPError st)) none)) ∧
    (∀ net params, (∀ i, net i = .connFail) →
      makeRequest params net =
        .error (.apiError ("Request error: " ++ retryExhaustedText) none)) ∧
    (∀ net params st, net 0 = .resp st .invalid → 200 ≤ st → st < 300 →
      makeRequest params net =
        .error (.apiError ("Request error: " ++ jsonDecodeText) none)) := by
  refine ⟨?_, ?_, ?_, ?_, ?_⟩
  · intro st body h4
    have hrt := responseTruthy_of_error st h4
    refine ⟨hrt, ?_, ?_⟩
    · simp [httpErrorStatusCode, hrt]
    · simp [httpErrorMessage, errorDataOf, hrt, messageChain, jlookup]
  · exact makeRequest_httpError
  · intro net st body aid opts h0 h4 h6 hnt
    have hmr := makeRequest_httpError net (buildCampaignParams (opts.getD {})) st body
      h0 h4 h6 hnt
    have hc := listCore_error validateCampaignStar _ net _ hmr
    simp [get_campaigns, get_campaignsCore, hc, pyStr]
  · intro net params h
    have hall : ∀ j, isTransientFail (net j) = true := by
      intro j
      simp [isTransientFail, h j]
    have hs : sessionRequest net = .exhausted 4 := by
      simpa [sessionRequest] using retryLoop_exhausts net hall 3 0
    simp [makeRequest, hs]
  · intro net params st h0 h2 h3
    have hnt : transient st = false := transient_of_success st h2 h3
    have hs : sessionRequest net = .response st .invalid 1 := by
      simp [sessionRequest, retryLoop, h0, hnt]
    have hno : ¬ (400 ≤ st ∧ st < 600) := by omega
    simp [makeRequest, hs, hno]

/-- C7, witness: a 403 with a parseable error body still yields the
raw-text UberAdsAPIError without a status code at the _make_request
level, because the response is falsy for an error status. -/
theorem c7_error_translation_witness :
    makeRequest []
        (fun _ => Attempt.resp 403
          (Body.json (Json.obj [("error", Json.obj [("message", Json.str "forbidden")])]))) =
      .error (.apiError ("Uber Ads API error: " ++ strHTTPError 403) none) ∧
    httpErrorStatusCode 403 = none ∧
    httpErrorMessage 403
        (Body.json (Json.obj [("error", Json.obj [("message", Json.str "forbidden")])])) =
      strHTTPError 403 := by
  refine ⟨?_, ?_, ?_⟩
  · exact c7_error_translation.2.1 _ [] 403 _ rfl (by decide) (by decide) (by decide)
  · exact (c7_error_translation.1 403 Body.empty (by decide)).2.1
  · exact (c7_error_translation.1 403
      (Body.json (Json.obj [("error", Json.obj [("message", Json.str "forbidden")])]))
      (by decide)).2.2

/-! ### C8: request headers and the bearer token -/

/-- C8.  For every configuration record the session headers are
Content-Type/Accept application/json and Authorization Bearer token —
but the token is the hardcoded literal from uber_ads_client.py line
41, not anything sourced from the configuration: the headers are
identical for every two configurations (and UberAdsConfig has no
token field at all). -/
theorem c8_headers_hardcoded_token :
    (∀ cfg : UberAdsConfig, clientHeaders cfg =
      [("Content-Type", "application/json"), ("Accept", "application/json"),
       ("Authorization", "Bearer " ++ hardcodedAccessToken)]) ∧
    (∀ cfg cfg' : UberAdsConfig, clientHeaders cfg = clientHeaders cfg') := by
  exact ⟨fun _ => rfl, fun _ _ => rfl⟩

/-! ### C10: response-validation failures surface as API errors -/

lemma err_retrieving_ne_invalid (m s : String) :
    ¬ ("Error retrieving campaigns: " ++ m = "Invalid arguments: " ++ s) := by
  intro h
  have hd := congrArg String.data h
  simp [String.data_append] at hd

lemma get_campaigns_error_shape (aid : String) (opts : Option GetCampaignsOptions)
    (net : Nat → Attempt) (e : PyExn) (h : get_campaigns aid opts net = .error e) :
    ∃ m, e = .apiError ("Failed to retrieve campaigns: " ++ m) none := by
  simp only [get_campaigns] at h
  cases hc : get_campaignsCore (buildCampaignParams (opts.getD {})) net with
  | ok l => rw [hc] at h; exact absurd h (by simp)
  | error e' =>
    rw [hc] at h
    simp at h
    exact ⟨pyStr e', h.symm⟩

/-- C10.  Every error get_campaigns raises is a UberAdsAPIError with
the "Failed to retrieve campaigns: " prefix and no status code — in
particular a 2xx response whose JSON body fails Campaign validation
(e.g. the empty body, which _make_request normalizes to the empty
object, missing all eight required fields) never lets a pydantic
ValidationError escape; the dispatcher reports such failures with the
"Error retrieving campaigns: " envelope; and an envelope whose message
begins "Invalid arguments: " can only come from tool-argument
validation failure. -/
theorem c10_response_validation_wrapped :
    (∀ aid opts net e, get_campaigns aid opts net = .error e →
      ∃ m, e = .apiError ("Failed to retrieve campaigns: " ++ m) none) ∧
    (∀ aid opts net, net 0 = .resp 200 Body.empty →
      get_campaigns aid opts net =
        .error (.apiError ("Failed to retrieve campaigns: " ++
          validationErrorText ("Campaign")
            ["id", "name", "status", "objective", "budget_type", "start_time",
             "created_at", "updated_at"]) none)) ∧
    (∀ raw args net m sc, validateGetCampaignsArgs raw = .ok args →
      get_campaigns args.ad_account_id (some (mkOptions args)) net =
        .error (.apiError m sc) →
      handle_get_campaigns raw net =
        (.failure ("Error retrieving campaigns: " ++ m), 1)) ∧
    (∀ raw net s, (handle_get_campaigns raw net).1 = .failure ("Invalid arguments: " ++ s) →
      ∃ fs, validateGetCampaignsArgs raw = .error fs) := by
  refine ⟨?_, ?_, ?_, ?_⟩
  · exact get_campaigns_error_shape
  · intro aid opts net h0
    have hs : sessionRequest net = .response 200 Body.empty 1 := by
      simp [sessionRequest, retryLoop, h0, transient]
    have hmr : makeRequest (buildCampaignParams (opts.getD {})) net = .ok (Json.obj []) := by
      simp [makeRequest, hs]
    have hv : validateCampaignFields [] =
        .error ["id", "name", "status", "objective", "budget_type", "start_time",
          "created_at", "updated_at"] := rfl
    simp [get_campaigns, get_campaignsCore, listCore, hmr, pyGetData, jlookup,
      listFromData, validateCampaignStar, starValidate, hv, pyStr]
  · intro raw args net m sc hval hclient
    simp [handle_get_campaigns, hval, hclient]
  · intro raw net s h
    cases hval : validateGetCampaignsArgs raw with
    | error fs => exact ⟨fs, rfl⟩
    | ok args =>
      exfalso
      cases hc : get_campaigns args.ad_account_id (some (mkOptions args)) net with
      | ok l =>
        rw [show handle_get_campaigns raw net =
          (.success (Json.arr (l.map (fun c => Json.obj (campaignDump c)))), 1) from by
            simp [handle_get_campaigns, hval, hc]] at h
        exact absurd h (by simp)
      | error e =>
        obtain ⟨m, rfl⟩ := get_campaigns_error_shape _ _ _ _ hc
        rw [show handle_get_campaigns raw net =
          (.failure ("Error retrieving campaigns: " ++
            ("Failed to retrieve campaigns: " ++ m)), 1) from by
            simp [handle_get_campaigns, hval, hc]] at h
        simp at h
        exact err_retrieving_ne_invalid _ _ h

/-- C10, witness: a 2xx empty body makes get_campaigns surface the
wrapped "Failed to retrieve campaigns:" UberAdsAPIError naming all
eight missing required fields. -/
theorem c10_response_validation_wrapped_witness :
    get_campaigns "acct-1" none (fun _ => Attempt.resp 200 Body.empty) =
      .error (.apiError ("Failed to retrieve campaigns: " ++
        validationErrorText ("Campaign")
          ["id", "name", "status", "objective", "budget_type", "start_time",
           "created_at", "updated_at"]) none) :=
  c10_response_validation_wrapped.2.1 "acct-1" none
    (fun _ => Attempt.resp 200 Body.empty) rfl

end UberAds
